import Mathlib

/-!
Verification of the authenticated-transport and async-job-polling core of the
go-api-sdk-nexthink client library, shallowly embedded in Lean.

The embedding covers:
* the OAuth2 token lifecycle manager (`TokenManager`, `GetToken`,
  `RefreshToken`, `InvalidateToken`) from the client package;
* the error classifier (`ParseErrorResponse`, `getDefaultErrorMessage` and the
  status-code predicates) from client/errors.go;
* the NQL export poller (`WaitForExport`, `ValidateExportID`,
  `isTerminalStatus`) from services/nql.

Time instants and durations are modelled as integers (nanoseconds, mirroring
Go's `time.Time`/`time.Duration` arithmetic used by the code: only `+` and `<`
occur).  JSON decoding (`encoding/json`) is modelled by a small JSON value
type, a recursive-descent parser and per-struct decoders that mirror Go's
field-wise unmarshalling for the two target structs the code decodes into.
Network effects are modelled by passing the HTTP outcome (transport error or
status/body) as an explicit argument, and by counting endpoint calls in the
returned result record.
-/

/-! ## A small JSON model (for Go's encoding/json as used by the code) -/

inductive Json where
  | null
  | bool (b : Bool)
  | num (intVal : Int) (isInt : Bool)
  | str (s : String)
  | arr (elems : List Json)
  | obj (fields : List (String × Json))

/-- Whitespace skipping, as in RFC 8259 (space, tab, newline, carriage return). -/
def skipWs : List Char → List Char
  | c :: rest =>
      if c = ' ' ∨ c = '\t' ∨ c = '\n' ∨ c = '\r' then skipWs rest else c :: rest
  | [] => []

def hexVal (c : Char) : Option Nat :=
  if '0' ≤ c ∧ c ≤ '9' then some (c.toNat - 48)
  else if 'a' ≤ c ∧ c ≤ 'f' then some (c.toNat - 87)
  else if 'A' ≤ c ∧ c ≤ 'F' then some (c.toNat - 55)
  else none

def digitVal (c : Char) : Option Nat :=
  if '0' ≤ c ∧ c ≤ '9' then some (c.toNat - 48) else none

/-- Parse the body of a JSON string (after the opening quote), with escapes. -/
def parseStringBody : Nat → List Char → List Char → Option (String × List Char)
  | 0, _, _ => none
  | _ + 1, [], _ => none
  | fuel + 1, c :: rest, acc =>
      if c = '"' then some (String.mk acc.reverse, rest)
      else if c = '\\' then
        match rest with
        | [] => none
        | e :: rest2 =>
            if e = '"' then parseStringBody fuel rest2 ('"' :: acc)
            else if e = '\\' then parseStringBody fuel rest2 ('\\' :: acc)
            else if e = '/' then parseStringBody fuel rest2 ('/' :: acc)
            else if e = 'b' then parseStringBody fuel rest2 (Char.ofNat 8 :: acc)
            else if e = 'f' then parseStringBody fuel rest2 (Char.ofNat 12 :: acc)
            else if e = 'n' then parseStringBody fuel rest2 ('\n' :: acc)
            else if e = 'r' then parseStringBody fuel rest2 ('\r' :: acc)
            else if e = 't' then parseStringBody fuel rest2 ('\t' :: acc)
            else if e = 'u' then
              match rest2 with
              | h1 :: h2 :: h3 :: h4 :: rest3 =>
                  match hexVal h1, hexVal h2, hexVal h3, hexVal h4 with
                  | some a, some b, some c2, some d =>
                      parseStringBody fuel rest3
                        (Char.ofNat (a * 4096 + b * 256 + c2 * 16 + d) :: acc)
                  | _, _, _, _ => none
              | _ => none
            else none
      else parseStringBody fuel rest (c :: acc)

def takeDigits : List Char → List Nat × List Char
  | [] => ([], [])
  | c :: rest =>
      match digitVal c with
      | some d =>
          let p := takeDigits rest
          (d :: p.1, p.2)
      | none => ([], c :: rest)

def digitsToNat (ds : List Nat) : Nat :=
  ds.foldl (fun a d => a * 10 + d) 0

/-- Optional fraction part; `none` means a malformed fraction. -/
def parseFracPart (cs : List Char) : Option (Bool × List Char) :=
  match cs with
  | c :: r =>
      if c = '.' then
        let p := takeDigits r
        if p.1 = [] then none else some (true, p.2)
      else some (false, cs)
  | [] => some (false, [])

/-- Optional exponent part; `none` means a malformed exponent. -/
def parseExpPart (cs : List Char) : Option (Bool × List Char) :=
  match cs with
  | c :: r =>
      if c = 'e' ∨ c = 'E' then
        let r2 := match r with
          | s :: r3 => if s = '+' ∨ s = '-' then r3 else s :: r3
          | [] => []
        let p := takeDigits r2
        if p.1 = [] then none else some (true, p.2)
      else some (false, cs)
  | [] => some (false, [])

/-- Parse a JSON number.  The integer value is recorded exactly when the
number has no fraction/exponent part (`isInt`); Go only decodes such numbers
into `int` fields, erroring otherwise. -/
def parseNumber (cs : List Char) : Option (Json × List Char) :=
  let sp : Bool × List Char :=
    match cs with
    | c :: r => if c = '-' then (true, r) else (false, cs)
    | [] => (false, [])
  match sp.2 with
  | [] => none
  | c :: _ =>
      match digitVal c with
      | none => none
      | some _ =>
          let p := takeDigits sp.2
          if p.1.length > 1 ∧ p.1.headD 1 = 0 then none
          else
            let n : Int := Int.ofNat (digitsToNat p.1)
            let v : Int := if sp.1 then -n else n
            match parseFracPart p.2 with
            | none => none
            | some fp =>
                match parseExpPart fp.2 with
                | none => none
                | some ep =>
                    some (Json.num v (¬fp.1 ∧ ¬ep.1 : Bool), ep.2)

/-- Try to consume an exact literal (for true/false/null). -/
def parseLit : List Char → List Char → Option (List Char)
  | [], cs => some cs
  | _ :: _, [] => none
  | l :: ls, c :: cs => if l = c then parseLit ls cs else none

/-- Parser mode: a whole value, the members of an object after the opening
brace (non-empty case), or the elements of an array after the opening
bracket (non-empty case). -/
inductive PMode where
  | value
  | members (acc : List (String × Json))
  | elems (acc : List Json)

def lbraceC : Char := Char.ofNat 123
def rbraceC : Char := Char.ofNat 125

/-- Fuel-indexed recursive-descent JSON parser (single structurally recursive
function so that it reduces in the kernel). -/
def parseStep : Nat → PMode → List Char → Option (Json × List Char)
  | 0, _, _ => none
  | fuel + 1, PMode.value, cs =>
      match skipWs cs with
      | [] => none
      | c :: rest =>
          if c = '"' then
            match parseStringBody (rest.length + 1) rest [] with
            | some p => some (Json.str p.1, p.2)
            | none => none
          else if c = lbraceC then
            match skipWs rest with
            | c2 :: rest2 =>
                if c2 = rbraceC then some (Json.obj [], rest2)
                else parseStep fuel (PMode.members []) (c2 :: rest2)
            | [] => none
          else if c = '[' then
            match skipWs rest with
            | c2 :: rest2 =>
                if c2 = ']' then some (Json.arr [], rest2)
                else parseStep fuel (PMode.elems []) (c2 :: rest2)
            | [] => none
          else if c = 't' then
            match parseLit ['r', 'u', 'e'] rest with
            | some r => some (Json.bool true, r)
            | none => none
          else if c = 'f' then
            match parseLit ['a', 'l', 's', 'e'] rest with
            | some r => some (Json.bool false, r)
            | none => none
          else if c = 'n' then
            match parseLit ['u', 'l', 'l'] rest with
            | some r => some (Json.null, r)
            | none => none
          else parseNumber (c :: rest)
  | fuel + 1, PMode.members acc, cs =>
      match skipWs cs with
      | c :: rest =>
          if c = '"' then
            match parseStringBody (rest.length + 1) rest [] with
            | some kp =>
                match skipWs kp.2 with
                | ':' :: r2 =>
                    match parseStep fuel PMode.value r2 with
                    | some vp =>
                        match skipWs vp.2 with
                        | ',' :: r4 =>
                            parseStep fuel (PMode.members ((kp.1, vp.1) :: acc)) r4
                        | c3 :: r4 =>
                            if c3 = rbraceC then
                              some (Json.obj ((kp.1, vp.1) :: acc).reverse, r4)
                            else none
                        | [] => none
                    | none => none
                | _ => none
            | none => none
          else none
      | [] => none
  | fuel + 1, PMode.elems acc, cs =>
      match parseStep fuel PMode.value cs with
      | some vp =>
          match skipWs vp.2 with
          | ',' :: r2 => parseStep fuel (PMode.elems (vp.1 :: acc)) r2
          | ']' :: r2 => some (Json.arr (vp.1 :: acc).reverse, r2)
          | _ => none
      | none => none

/-- Model of parsing a whole body as one JSON value (Go's `json.Unmarshal`
rejects leftover non-whitespace input). -/
def parseJson (s : String) : Option Json :=
  match parseStep (s.length + 1) PMode.value s.toList with
  | some p => if skipWs p.2 = [] then some p.1 else none
  | none => none

/-! ## Go field-decoding helpers

Go's `json.Unmarshal` into a struct: JSON null leaves the field at its current
(zero) value, a matching primitive type sets it, any other type is a decode
error; unknown object keys are ignored; unmarshalling `null` into a struct is
a no-op; unmarshalling a non-object, non-null value into a struct errors. -/

def decodeStringField (curr : String) : Json → Option String
  | Json.str s => some s
  | Json.null => some curr
  | _ => none

def decodeIntField (curr : Int) : Json → Option Int
  | Json.num v true => some v
  | Json.null => some curr
  | _ => none

/-! ## client/errors.go: APIError, ParseErrorResponse, classification predicates -/

/-- HTTP status-code constants from client/errors.go. -/
def StatusBadRequest : Int := 400
def StatusUnauthorized : Int := 401
def StatusForbidden : Int := 403
def StatusNotFound : Int := 404
def StatusConflict : Int := 409
def StatusUnprocessableEntity : Int := 422
def StatusTooManyRequests : Int := 429
def StatusInternalServerError : Int := 500
def StatusBadGateway : Int := 502
def StatusServiceUnavailable : Int := 503
def StatusGatewayTimeout : Int := 504

/-- `APIError` from client/errors.go: error payload fields plus HTTP response
details. -/
structure APIError where
  Code : String
  Message : String
  Details : String
  StatusCode : Int
  Status : String
  Endpoint : String
  Method : String
deriving Repr, DecidableEq

/-- The zero value of `APIError` (Go's zero struct). -/
def APIError.zero : APIError :=
  { Code := "", Message := "", Details := "", StatusCode := 0,
    Status := "", Endpoint := "", Method := "" }

/-- A Go `error` value as the code manipulates it: either a `*APIError`, a
plain formatted error (`fmt.Errorf` without `%w`, or `errors.New`), or a
wrapping error (`fmt.Errorf` with `%w`). -/
inductive GoError where
  | apiError (e : APIError)
  | plain (msg : String)
  | wrapped (msg : String) (inner : GoError)
deriving Repr, DecidableEq

/-- True exactly when the dynamic type is not `*APIError` (so the type
assertion in the classification predicates fails). -/
def notAPIError : GoError → Bool
  | GoError.apiError _ => false
  | _ => true

/-- True exactly for errors that wrap another error. -/
def isWrappedErr : GoError → Bool
  | GoError.wrapped _ _ => true
  | _ => false

/-- `genericErrorResponse` from client/errors.go. -/
structure GenericErrorResponse where
  error : Option APIError
  message : String
  code : String
deriving Repr, DecidableEq

def GenericErrorResponse.zero : GenericErrorResponse :=
  { error := none, message := "", code := "" }

/-- Decode one key/value pair of a JSON object into an `APIError` (the target
of the nested `"error"` field).  Tagged fields `code`, `message`, `details`
are strings; the untagged fields match on their Go field names; unknown keys
are ignored (Go's default). -/
def decodeAPIErrorStep (acc : APIError) (kv : String × Json) : Option APIError :=
  if kv.1 = "code" then
    (decodeStringField acc.Code kv.2).map (fun v => { acc with Code := v })
  else if kv.1 = "message" then
    (decodeStringField acc.Message kv.2).map (fun v => { acc with Message := v })
  else if kv.1 = "details" then
    (decodeStringField acc.Details kv.2).map (fun v => { acc with Details := v })
  else if kv.1 = "StatusCode" then
    (decodeIntField acc.StatusCode kv.2).map (fun v => { acc with StatusCode := v })
  else if kv.1 = "Status" then
    (decodeStringField acc.Status kv.2).map (fun v => { acc with Status := v })
  else if kv.1 = "Endpoint" then
    (decodeStringField acc.Endpoint kv.2).map (fun v => { acc with Endpoint := v })
  else if kv.1 = "Method" then
    (decodeStringField acc.Method kv.2).map (fun v => { acc with Method := v })
  else some acc

def decodeAPIErrorObj : Json → Option APIError
  | Json.null => some APIError.zero
  | Json.obj fs => fs.foldlM decodeAPIErrorStep APIError.zero
  | _ => none

/-- Decode one key/value pair of a JSON object into `genericErrorResponse`.
The `"error"` field is a `*APIError`: JSON null leaves it nil, an object is
decoded field-wise, any other type errors. -/
def decodeGenericStep (acc : GenericErrorResponse) (kv : String × Json) :
    Option GenericErrorResponse :=
  if kv.1 = "error" then
    match kv.2 with
    | Json.null => some acc
    | Json.obj fs =>
        (fs.foldlM decodeAPIErrorStep APIError.zero).map
          (fun e => { acc with error := some e })
    | _ => none
  else if kv.1 = "message" then
    (decodeStringField acc.message kv.2).map (fun v => { acc with message := v })
  else if kv.1 = "code" then
    (decodeStringField acc.code kv.2).map (fun v => { acc with code := v })
  else some acc

/-- Model of `json.Unmarshal(body, &genericErrorResponse)` on an already
parsed JSON value. -/
def decodeGeneric : Json → Option GenericErrorResponse
  | Json.null => some GenericErrorResponse.zero
  | Json.obj fs => fs.foldlM decodeGenericStep GenericErrorResponse.zero
  | _ => none

/-- `getDefaultErrorMessage` from client/errors.go. -/
def getDefaultErrorMessage (statusCode : Int) : String :=
  if statusCode = StatusBadRequest then "The API request is invalid or malformed"
  else if statusCode = StatusUnauthorized then "Authentication required or invalid credentials"
  else if statusCode = StatusForbidden then "You are not allowed to perform the requested operation"
  else if statusCode = StatusNotFound then "The requested resource was not found"
  else if statusCode = StatusConflict then "The resource already exists"
  else if statusCode = StatusUnprocessableEntity then "Validation error"
  else if statusCode = StatusTooManyRequests then "Rate limit exceeded. Too many requests in a given time period"
  else if statusCode = StatusInternalServerError then "Internal server error"
  else if statusCode = StatusBadGateway then "Bad gateway"
  else if statusCode = StatusServiceUnavailable then "Service temporarily unavailable. Retry might work"
  else if statusCode = StatusGatewayTimeout then "The operation took too long to complete"
  else "Unknown error"

/-- The fallback tail of `ParseErrorResponse`: use the raw body as message,
or the status-keyed default when the body is empty. -/
def parseErrorFallback (apiError : APIError) (body : String) (statusCode : Int) :
    APIError :=
  let a := { apiError with Message := body }
  if a.Message = "" then { a with Message := getDefaultErrorMessage statusCode }
  else a

/-- `ParseErrorResponse` from client/errors.go.  The Go function returns
`error`, always concretely a `*APIError`; we return the `APIError`. -/
def ParseErrorResponse (body : String) (statusCode : Int)
    (status method endpoint : String) : APIError :=
  let apiError : APIError :=
    { Code := "", Message := "", Details := "",
      StatusCode := statusCode, Status := status,
      Endpoint := endpoint, Method := method }
  match (parseJson body).bind decodeGeneric with
  | some errResp =>
      let apiError :=
        match errResp.error with
        | some e =>
            { apiError with Code := e.Code, Message := e.Message, Details := e.Details }
        | none =>
            let a1 := if errResp.message ≠ "" then { apiError with Message := errResp.message }
                      else apiError
            if errResp.code ≠ "" then { a1 with Code := errResp.code } else a1
      if apiError.Code ≠ "" ∨ apiError.Message ≠ "" then apiError
      else parseErrorFallback apiError body statusCode
  | none => parseErrorFallback apiError body statusCode

/-- `IsBadRequest` from client/errors.go (type assertion to `*APIError`,
then a status-code test). -/
def IsBadRequest : GoError → Bool
  | GoError.apiError a => a.StatusCode = StatusBadRequest
  | _ => false

/-- `IsUnauthorized` from client/errors.go. -/
def IsUnauthorized : GoError → Bool
  | GoError.apiError a => a.StatusCode = StatusUnauthorized
  | _ => false

/-- `IsForbidden` from client/errors.go. -/
def IsForbidden : GoError → Bool
  | GoError.apiError a => a.StatusCode = StatusForbidden
  | _ => false

/-- `IsNotFound` from client/errors.go. -/
def IsNotFound : GoError → Bool
  | GoError.apiError a => a.StatusCode = StatusNotFound
  | _ => false

/-- `IsConflict` from client/errors.go. -/
def IsConflict : GoError → Bool
  | GoError.apiError a => a.StatusCode = StatusConflict
  | _ => false

/-- `IsValidationError` from client/errors.go. -/
def IsValidationError : GoError → Bool
  | GoError.apiError a => a.StatusCode = StatusUnprocessableEntity
  | _ => false

/-- `IsRateLimited` from client/errors.go. -/
def IsRateLimited : GoError → Bool
  | GoError.apiError a => a.StatusCode = StatusTooManyRequests
  | _ => false

/-- `IsServerError` from client/errors.go. -/
def IsServerError : GoError → Bool
  | GoError.apiError a => 500 ≤ a.StatusCode ∧ a.StatusCode < 600
  | _ => false

/-- `IsTransient` from client/errors.go. -/
def IsTransient : GoError → Bool
  | GoError.apiError a =>
      a.StatusCode = StatusServiceUnavailable ∨ a.StatusCode = StatusGatewayTimeout
  | _ => false

/-! ## Token lifecycle manager (client auth source file) -/

/-- `TokenRefreshBuffer` (seconds) from client/response.go. -/
def TokenRefreshBuffer : Int := 120

/-- One second in nanoseconds (Go's `time.Second`). -/
def timeSecond : Int := 1000000000

/-- `ScopeServiceIntegration` from client/response.go. -/
def ScopeServiceIntegration : String := "service:integration"

/-- `GrantTypeClientCredentials` from client/response.go. -/
def GrantTypeClientCredentials : String := "client_credentials"

/-- `ContentTypeFormURLEncoded` from client/response.go. -/
def ContentTypeFormURLEncoded : String := "application/x-www-form-urlencoded"

/-- UTF-8 encoding of one character (Go's `[]byte(string)` byte sequence). -/
def utf8Bytes (c : Char) : List Nat :=
  let n := c.toNat
  if n < 128 then [n]
  else if n < 2048 then [192 + n / 64, 128 + n % 64]
  else if n < 65536 then [224 + n / 4096, 128 + n / 64 % 64, 128 + n % 64]
  else [240 + n / 262144, 128 + n / 4096 % 64, 128 + n / 64 % 64, 128 + n % 64]

/-- The UTF-8 bytes of a string (Go's `[]byte(s)`). -/
def stringBytes (s : String) : List Nat :=
  s.toList.foldr (fun c acc => utf8Bytes c ++ acc) []

def base64Chars : List Char :=
  "ABCDEFGHIJKLMNOPQRSTUVWXYZabcdefghijklmnopqrstuvwxyz0123456789+/".toList

def b64c (n : Nat) : Char := base64Chars.getD n '='

/-- Standard base64 with padding (Go's `base64.StdEncoding.EncodeToString`). -/
def base64EncodeBytes : List Nat → List Char
  | [] => []
  | [b0] => [b64c (b0 / 4), b64c (b0 % 4 * 16), '=', '=']
  | [b0, b1] => [b64c (b0 / 4), b64c (b0 % 4 * 16 + b1 / 16), b64c (b1 % 16 * 4), '=']
  | b0 :: b1 :: b2 :: rest =>
      b64c (b0 / 4) :: b64c (b0 % 4 * 16 + b1 / 16) ::
        b64c (b1 % 16 * 4 + b2 / 64) :: b64c (b2 % 64) :: base64EncodeBytes rest

def base64Encode (s : String) : String :=
  String.mk (base64EncodeBytes (stringBytes s))

/-- `AuthConfig` from the client auth source file. -/
structure AuthConfig where
  ClientID : String
  ClientSecret : String
  Instance : String
  Region : String
  TokenURL : String
  Scope : String
deriving Repr, DecidableEq

/-- `AuthConfig.GetTokenURL`: custom URL if set, else built from the
`DefaultTokenURLTemplate` in client/response.go. -/
def AuthConfig.GetTokenURL (a : AuthConfig) : String :=
  if a.TokenURL ≠ "" then a.TokenURL
  else "https://" ++ a.Instance ++ "-login." ++ a.Region ++
    ".nexthink.cloud/oauth2/default/v1/token"

/-- `AuthConfig.GetScope`. -/
def AuthConfig.GetScope (a : AuthConfig) : String :=
  if a.Scope ≠ "" then a.Scope else ScopeServiceIntegration

/-- `AuthConfig.GenerateBasicAuth`: base64 of `clientId:clientSecret`. -/
def AuthConfig.GenerateBasicAuth (a : AuthConfig) : String :=
  base64Encode (a.ClientID ++ ":" ++ a.ClientSecret)

/-- `TokenResponse` from the client auth source file. -/
structure TokenResponse where
  TokenType : String
  ExpiresIn : Int
  AccessToken : String
  Scope : String
deriving Repr, DecidableEq

def TokenResponse.zero : TokenResponse :=
  { TokenType := "", ExpiresIn := 0, AccessToken := "", Scope := "" }

/-- Decode one key/value pair of a JSON object into `TokenResponse`
(json tags: token_type, expires_in, access_token, scope). -/
def decodeTokenStep (acc : TokenResponse) (kv : String × Json) :
    Option TokenResponse :=
  if kv.1 = "token_type" then
    (decodeStringField acc.TokenType kv.2).map (fun v => { acc with TokenType := v })
  else if kv.1 = "expires_in" then
    (decodeIntField acc.ExpiresIn kv.2).map (fun v => { acc with ExpiresIn := v })
  else if kv.1 = "access_token" then
    (decodeStringField acc.AccessToken kv.2).map (fun v => { acc with AccessToken := v })
  else if kv.1 = "scope" then
    (decodeStringField acc.Scope kv.2).map (fun v => { acc with Scope := v })
  else some acc

/-- Model of `json.Unmarshal(body, &TokenResponse)` on a parsed JSON value. -/
def decodeTokenResponse : Json → Option TokenResponse
  | Json.null => some TokenResponse.zero
  | Json.obj fs => fs.foldlM decodeTokenStep TokenResponse.zero
  | _ => none

/-- The mutable state of `TokenManager` (the fields the lock protects), plus
its immutable configuration. -/
structure TokenManager where
  authConfig : AuthConfig
  currentToken : Option TokenResponse
  tokenExpiry : Int
  refreshBuffer : Int
deriving Repr, DecidableEq

/-- `NewTokenManager`: no token, zero expiry, 120-second refresh buffer. -/
def NewTokenManager (a : AuthConfig) : TokenManager :=
  { authConfig := a, currentToken := none, tokenExpiry := 0,
    refreshBuffer := TokenRefreshBuffer * timeSecond }

/-- The usability check both `GetToken` and `RefreshToken` perform:
`tm.currentToken != nil && time.Now().Add(tm.refreshBuffer).Before(tm.tokenExpiry)`. -/
def tokenUsable (tm : TokenManager) (now : Int) : Bool :=
  tm.currentToken.isSome ∧ now + tm.refreshBuffer < tm.tokenExpiry

/-- The access token of the cached token ("" when none is cached). -/
def cachedAccessToken (tm : TokenManager) : String :=
  match tm.currentToken with
  | some t => t.AccessToken
  | none => ""

/-- Outcome of the HTTP POST to the token endpoint: either a transport-level
failure or a response with status code and body. -/
inductive HTTPResult where
  | transportError (msg : String)
  | response (statusCode : Int) (body : String)
deriving Repr, DecidableEq

/-- The token request the manager builds: POST to the token URL with
form-encoded content type, Basic authorization, and the grant_type/scope
form fields. -/
structure TokenRequest where
  url : String
  contentType : String
  authorization : String
  grantType : String
  scope : String
deriving Repr, DecidableEq

def mkTokenRequest (a : AuthConfig) : TokenRequest :=
  { url := a.GetTokenURL,
    contentType := ContentTypeFormURLEncoded,
    authorization := "Basic " ++ a.GenerateBasicAuth,
    grantType := GrantTypeClientCredentials,
    scope := a.GetScope }

/-- Result of a `GetToken`/`RefreshToken` call: the returned (token, error)
pair, the post-state, the number of token-endpoint calls made, and the
request sent (if any). -/
structure RefreshResult where
  result : Except GoError String
  state : TokenManager
  endpointCalls : Nat
  request : Option TokenRequest
deriving Repr

/-- The body of `RefreshToken` past the double-check: performs the endpoint
call and processes its outcome exactly as the source does (transport error,
`resp.IsError()` i.e. status > 399, JSON parse failure, or success storing
the token and recomputing the expiry). -/
def refreshCall (tm : TokenManager) (now : Int) (http : HTTPResult) :
    RefreshResult :=
  let req := mkTokenRequest tm.authConfig
  match http with
  | HTTPResult.transportError msg =>
      { result := Except.error
          (GoError.wrapped "failed to request access token" (GoError.plain msg)),
        state := tm, endpointCalls := 1, request := some req }
  | HTTPResult.response code body =>
      if code > 399 then
        { result := Except.error (GoError.plain
            ("token request failed with status " ++ toString code ++ ": " ++ body)),
          state := tm, endpointCalls := 1, request := some req }
      else
        match (parseJson body).bind decodeTokenResponse with
        | none =>
            { result := Except.error (GoError.wrapped "failed to parse token response"
                (GoError.plain "json unmarshal error")),
              state := tm, endpointCalls := 1, request := some req }
        | some tokenResp =>
            { result := Except.ok tokenResp.AccessToken,
              state := { tm with
                  currentToken := some tokenResp,
                  tokenExpiry := now + tokenResp.ExpiresIn * timeSecond },
              endpointCalls := 1, request := some req }

/-- `TokenManager.RefreshToken`: under the exclusive lock, first the
double-check (if another goroutine just refreshed, return the fresh token
without a network call), otherwise the endpoint call. -/
def RefreshToken (tm : TokenManager) (now : Int) (http : HTTPResult) :
    RefreshResult :=
  match tm.currentToken with
  | some tok =>
      if now + tm.refreshBuffer < tm.tokenExpiry then
        { result := Except.ok tok.AccessToken, state := tm,
          endpointCalls := 0, request := none }
      else refreshCall tm now http
  | none => refreshCall tm now http

/-- `TokenManager.GetToken`.  The read-locked check sees state `tm` at time
`now`; if the cached token is not usable, `RefreshToken` runs after
re-acquiring the lock, observing state `tmAtLock` at time `nowAtLock`
(modelling that a concurrent refresh may have installed a fresh token in
between; in a sequential run `tmAtLock = tm` and `nowAtLock = now`). -/
def GetToken (tm : TokenManager) (now : Int) (tmAtLock : TokenManager)
    (nowAtLock : Int) (http : HTTPResult) : RefreshResult :=
  match tm.currentToken with
  | some tok =>
      if now + tm.refreshBuffer < tm.tokenExpiry then
        { result := Except.ok tok.AccessToken, state := tm,
          endpointCalls := 0, request := none }
      else RefreshToken tmAtLock nowAtLock http
  | none => RefreshToken tmAtLock nowAtLock http

/-- Sequential `GetToken` (no interleaving between the read-locked check and
the refresh). -/
def GetTokenSeq (tm : TokenManager) (now : Int) (http : HTTPResult) :
    RefreshResult :=
  GetToken tm now tm now http

/-- `TokenManager.InvalidateToken`: clears the token and zeroes the expiry. -/
def InvalidateToken (tm : TokenManager) : TokenManager :=
  { tm with currentToken := none, tokenExpiry := 0 }

/-! ## services/nql: export status polling -/

/-- Export status constants from services/nql/constants.go. -/
def ExportStatusSubmitted : String := "SUBMITTED"
def ExportStatusInProgress : String := "IN_PROGRESS"
def ExportStatusCompleted : String := "COMPLETED"
def ExportStatusError : String := "ERROR"

/-- `MaxQueryIDLength` from services/nql/constants.go (used by
`ValidateExportID`). -/
def MaxQueryIDLength : Nat := 256

/-- `NQLExportStatusResponse` (aliased `ExportStatusResponse` in the nql
package). -/
structure ExportStatusResponse where
  ExportID : String
  Status : String
  ResultsFileURL : String
  ErrorDescription : String
deriving Repr, DecidableEq

/-- `isTerminalStatus` from services/nql/helpers.go. -/
def isTerminalStatus (status : String) : Bool :=
  status = ExportStatusCompleted ∨ status = ExportStatusError

/-- Go's `len` on a string: its UTF-8 byte count. -/
def goLen (s : String) : Nat := (stringBytes s).length

/-- `ValidateExportID` from services/nql/validators.go; `none` means valid. -/
def ValidateExportID (exportID : String) : Option GoError :=
  if exportID = "" then some (GoError.plain "export ID cannot be empty")
  else if goLen exportID > MaxQueryIDLength then
    some (GoError.plain "export ID exceeds maximum length of 256 characters")
  else none

/-- Result of a `WaitForExport` run: the returned (status, error) pair plus
the number of `GetExportStatus` calls made and of poll-interval waits taken. -/
structure WaitResult where
  status : Option ExportStatusResponse
  error : Option GoError
  statusCalls : Nat
  intervalWaits : Nat
deriving Repr, DecidableEq

/-- The `for`/`select` loop of `WaitForExport`.  `polls i` is the outcome of
the `i`-th `GetExportStatus` call; `fuel` is the number of ticker fires the
timeout still allows; when the fuel runs out the timeout case returns the
last observed status together with the timeout error. -/
def waitLoop (polls : Nat → Except GoError ExportStatusResponse)
    (timeoutMsg : String) : ExportStatusResponse → Nat → Nat → Nat → Nat →
    WaitResult
  | last, _, calls, waits, 0 =>
      { status := some last, error := some (GoError.plain timeoutMsg),
        statusCalls := calls, intervalWaits := waits }
  | last, i, calls, waits, fuel + 1 =>
      match polls i with
      | Except.error e =>
          { status := none,
            error := some (GoError.wrapped "failed to get export status" e),
            statusCalls := calls + 1, intervalWaits := waits + 1 }
      | Except.ok st =>
          if isTerminalStatus st.Status then
            { status := some st, error := none,
              statusCalls := calls + 1, intervalWaits := waits + 1 }
          else waitLoop polls timeoutMsg st (i + 1) (calls + 1) (waits + 1) fuel

/-- `Service.WaitForExport` from services/nql/crud.go.  Validation, defaults
for non-positive interval/timeout, an immediate first status check, then the
tick/timeout loop.  `ticksBeforeTimeout` models how many ticker fires the
timeout budget admits in this run. -/
def WaitForExport (exportID : String) (pollInterval timeoutDur : Int)
    (polls : Nat → Except GoError ExportStatusResponse)
    (ticksBeforeTimeout : Nat) : WaitResult :=
  match ValidateExportID exportID with
  | some e => { status := none, error := some e, statusCalls := 0, intervalWaits := 0 }
  | none =>
      let timeoutDur := if timeoutDur ≤ 0 then 600 * timeSecond else timeoutDur
      let timeoutMsg :=
        "timeout waiting for export to complete after " ++ toString timeoutDur
      match polls 0 with
      | Except.error e =>
          { status := none,
            error := some (GoError.wrapped "failed to get initial export status" e),
            statusCalls := 1, intervalWaits := 0 }
      | Except.ok st =>
          if isTerminalStatus st.Status then
            { status := some st, error := none, statusCalls := 1, intervalWaits := 0 }
          else waitLoop polls timeoutMsg st 1 1 0 ticksBeforeTimeout

/-! ## Concrete fixtures used by witnesses and counterexamples -/

/-- `\x7b"error":\x7b"code":"INVALID_QUERY","message":"m"\x7d\x7d` -/
def bodyC6 : String := "\x7b\"error\":\x7b\"code\":\"INVALID_QUERY\",\"message\":\"m\"\x7d\x7d"

/-- A token payload with a zero `expires_in`. -/
def body10 : String := "\x7b\"access_token\":\"t0\",\"expires_in\":0\x7d"

def authW : AuthConfig :=
  { ClientID := "id", ClientSecret := "secret", Instance := "inst", Region := "us",
    TokenURL := "", Scope := "" }

def tokW : TokenResponse :=
  { TokenType := "Bearer", ExpiresIn := 900, AccessToken := "tokW", Scope := "s" }

/-- A manager holding a token usable at time 0 (margin 120 s, expiry at
1000 s in nanoseconds). -/
def tmFreshW : TokenManager :=
  { authConfig := authW, currentToken := some tokW, tokenExpiry := 1000000000000,
    refreshBuffer := 120000000000 }

/-- A 257-byte export identifier (non-empty but rejected by validation). -/
def longID : String := String.mk (List.replicate 257 'a')

def pollsCompleted : Nat → Except GoError ExportStatusResponse := fun _ =>
  Except.ok { ExportID := "e", Status := "COMPLETED", ResultsFileURL := "u",
              ErrorDescription := "" }

def stIP : ExportStatusResponse :=
  { ExportID := "e", Status := "IN_PROGRESS", ResultsFileURL := "", ErrorDescription := "" }

def pollsIP : Nat → Except GoError ExportStatusResponse := fun _ => Except.ok stIP

/-! ## Helper lemmas -/

/-- Whenever the endpoint call is actually performed, exactly one request is
sent and it is the token request built from the configuration. -/
lemma refreshCall_calls (tm : TokenManager) (now : Int) (http : HTTPResult) :
    (refreshCall tm now http).endpointCalls = 1
    ∧ (refreshCall tm now http).request = some (mkTokenRequest tm.authConfig) := by
  unfold refreshCall
  cases http with
  | transportError msg => exact ⟨rfl, rfl⟩
  | response code body =>
      by_cases h : code > 399
      · simp [h]
      · simp [h]
        cases hp : (parseJson body).bind decodeTokenResponse <;> simp [hp]

/-- An erroring endpoint call leaves the manager state unchanged. -/
lemma refreshCall_error_state (tm : TokenManager) (now : Int) (http : HTTPResult)
    (e : GoError) (h : (refreshCall tm now http).result = Except.error e) :
    (refreshCall tm now http).state = tm := by
  unfold refreshCall at *
  cases http with
  | transportError msg => rfl
  | response code body =>
      by_cases hc : code > 399
      · simp [hc]
      · simp [hc] at h ⊢
        cases hp : (parseJson body).bind decodeTokenResponse with
        | none => simp [hp]
        | some tok => simp [hp] at h

/-- A usable cached token is served by `GetToken` with no network call. -/
lemma getToken_cached (tm : TokenManager) (now : Int) (tmAtLock : TokenManager)
    (nowAtLock : Int) (http : HTTPResult) (h : tokenUsable tm now = true) :
    GetToken tm now tmAtLock nowAtLock http =
      { result := Except.ok (cachedAccessToken tm), state := tm,
        endpointCalls := 0, request := none } := by
  rcases htok : tm.currentToken with _ | tok
  · simp [tokenUsable, htok] at h
  · have hlt : now + tm.refreshBuffer < tm.tokenExpiry := by
      simpa [tokenUsable, htok] using h
    simp [GetToken, htok, hlt, cachedAccessToken]

/-- Claim C7: `IsTransient` holds exactly on `*APIError`s with status 503 or
504, `IsServerError` exactly on `*APIError`s with status in [500, 600), and
the transient predicate is strictly narrower than the server-error one. -/
theorem isTransient_isServerError_spec :
    ∀ e : GoError,
      (IsTransient e = true ↔
        ∃ a, e = GoError.apiError a ∧ (a.StatusCode = 503 ∨ a.StatusCode = 504))
      ∧ (IsServerError e = true ↔
        ∃ a, e = GoError.apiError a ∧ 500 ≤ a.StatusCode ∧ a.StatusCode < 600)
      ∧ (IsTransient e = true → IsServerError e = true)
      ∧ (∃ e2 : GoError, IsServerError e2 = true ∧ IsTransient e2 = false) := by
  intro e
  refine ⟨?_, ?_, ?_, ?_⟩
  · cases e <;>
      simp [IsTransient, StatusServiceUnavailable, StatusGatewayTimeout]
  · cases e <;> simp [IsServerError]
  · cases e with
    | apiError a =>
        simp only [IsTransient, IsServerError, StatusServiceUnavailable,
          StatusGatewayTimeout, decide_eq_true_eq]
        omega
    | plain msg => simp [IsTransient]
    | wrapped msg inner => simp [IsTransient]
  · exact ⟨GoError.apiError { APIError.zero with StatusCode := 500 }, by decide, by decide⟩

/-- Witness for C7 at a concrete 503 error. -/
theorem isTransient_isServerError_spec_witness :
    IsTransient (GoError.apiError { APIError.zero with StatusCode := 503 }) = true
    ∧ IsServerError (GoError.apiError { APIError.zero with StatusCode := 503 }) = true := by
  have h := isTransient_isServerError_spec
    (GoError.apiError { APIError.zero with StatusCode := 503 })
  have ht : IsTransient (GoError.apiError { APIError.zero with StatusCode := 503 }) = true :=
    by decide
  exact ⟨ht, h.2.2.1 ht⟩

/-- Claim C6: `ParseErrorResponse` extracts code/message from a structured
error body; an empty body yields the status-keyed default message (the 503
default for 503); a body that does not decode as a generic error response
becomes the message verbatim; and the HTTP status code, status text, method
and endpoint are preserved on the error in every case. -/
theorem parseErrorResponse_spec :
    (∀ status method endpoint,
        ParseErrorResponse bodyC6 400 status method endpoint =
          { Code := "INVALID_QUERY", Message := "m", Details := "",
            StatusCode := 400, Status := status, Endpoint := endpoint,
            Method := method })
    ∧ (∀ sc status method endpoint,
        (ParseErrorResponse "" sc status method endpoint).Message =
          getDefaultErrorMessage sc)
    ∧ (∀ status method endpoint,
        (ParseErrorResponse "" 503 status method endpoint).Message =
          "Service temporarily unavailable. Retry might work")
    ∧ (∀ body sc status method endpoint,
        (parseJson body).bind decodeGeneric = none → body ≠ "" →
        (ParseErrorResponse body sc status method endpoint).Message = body)
    ∧ (∀ body sc status method endpoint,
        (ParseErrorResponse body sc status method endpoint).StatusCode = sc
        ∧ (ParseErrorResponse body sc status method endpoint).Status = status
        ∧ (ParseErrorResponse body sc status method endpoint).Method = method
        ∧ (ParseErrorResponse body sc status method endpoint).Endpoint = endpoint) := by
  refine ⟨fun _ _ _ => rfl, fun _ _ _ _ => rfl, fun _ _ _ => rfl, ?_, ?_⟩
  · intro body sc status method endpoint hnone hne
    simp [ParseErrorResponse, hnone, parseErrorFallback, hne]
  · intro body sc status method endpoint
    unfold ParseErrorResponse parseErrorFallback
    refine ⟨?_, ?_, ?_, ?_⟩ <;> (repeat' split) <;>
      simp_all [apply_ite APIError.StatusCode, apply_ite APIError.Status,
        apply_ite APIError.Method, apply_ite APIError.Endpoint]

/-- Witness for C6 applying the raw-body fallback at a concrete unparseable
body. -/
theorem parseErrorResponse_spec_witness :
    (parseJson "oops").bind decodeGeneric = none ∧ ("oops" : String) ≠ ""
    ∧ (ParseErrorResponse "oops" 418 "teapot" "GET" "/x").Message = "oops" :=
  ⟨by decide, by decide,
   parseErrorResponse_spec.2.2.2.1 "oops" 418 "teapot" "GET" "/x" (by decide) (by decide)⟩

/-- Claim C1: a cached token satisfying the margin rule is returned by
`GetToken` with no endpoint call; otherwise `GetToken` performs a refresh,
which makes the endpoint call exactly when the state observed under the lock
does not already hold a usable token (a concurrent refresh may have
installed one). -/
theorem getToken_spec (tm : TokenManager) (now : Int) (tmAtLock : TokenManager)
    (nowAtLock : Int) (http : HTTPResult) :
    (∀ tok, tm.currentToken = some tok → now + tm.refreshBuffer < tm.tokenExpiry →
        GetToken tm now tmAtLock nowAtLock http =
          { result := Except.ok tok.AccessToken, state := tm,
            endpointCalls := 0, request := none })
    ∧ ((tm.currentToken = none ∨ tm.tokenExpiry ≤ now + tm.refreshBuffer) →
        GetToken tm now tmAtLock nowAtLock http = RefreshToken tmAtLock nowAtLock http
        ∧ (RefreshToken tmAtLock nowAtLock http).endpointCalls =
            (if tokenUsable tmAtLock nowAtLock then 0 else 1)) := by
  constructor
  · intro tok htok hlt
    simp [GetToken, htok, hlt]
  · intro h
    constructor
    · rcases htok : tm.currentToken with _ | tok
      · simp [GetToken, htok]
      · rcases h with h | h
        · rw [htok] at h; exact absurd h (by simp)
        · simp [GetToken, htok, not_lt.mpr h]
    · rcases htok2 : tmAtLock.currentToken with _ | tok2
      · simp [RefreshToken, htok2, tokenUsable, (refreshCall_calls tmAtLock nowAtLock http).1]
      · by_cases hlt2 : nowAtLock + tmAtLock.refreshBuffer < tmAtLock.tokenExpiry
        · simp [RefreshToken, htok2, hlt2, tokenUsable]
        · simp [RefreshToken, htok2, hlt2, tokenUsable,
            (refreshCall_calls tmAtLock nowAtLock http).1]

/-- Witness for C1: a fresh cached token is served without a network call. -/
theorem getToken_spec_witness :
    GetToken tmFreshW 0 tmFreshW 0 (HTTPResult.response 200 "ignored") =
      { result := Except.ok "tokW", state := tmFreshW,
        endpointCalls := 0, request := none } :=
  (getToken_spec tmFreshW 0 tmFreshW 0 (HTTPResult.response 200 "ignored")).1
    tokW rfl (by decide)

/-- Claim C2 counterexample: with a still-usable cached token,
`RefreshToken` returns the cached token and performs no endpoint call at
all, refuting "unconditionally contacts the token endpoint". -/
theorem refreshToken_not_unconditional :
    (RefreshToken tmFreshW 0 (HTTPResult.response 200 "ignored")).endpointCalls = 0
    ∧ (RefreshToken tmFreshW 0 (HTTPResult.response 200 "ignored")).request = none
    ∧ (RefreshToken tmFreshW 0 (HTTPResult.response 200 "ignored")).result =
        Except.ok "tokW" :=
  ⟨rfl, rfl, rfl⟩

/-- Claim C2 (amended): `RefreshToken` contacts the token endpoint exactly
when the cached token is not usable under the margin rule at the time of the
call (the double-check under the lock); when it does, the request carries
Basic authentication derived from the credential, grant_type
client_credentials, the configured scope, and a form-encoded content type. -/
theorem refreshToken_request_spec (tm : TokenManager) (now : Int) (http : HTTPResult) :
    (tokenUsable tm now = true →
        (RefreshToken tm now http).endpointCalls = 0
        ∧ (RefreshToken tm now http).request = none
        ∧ (RefreshToken tm now http).state = tm
        ∧ (RefreshToken tm now http).result = Except.ok (cachedAccessToken tm))
    ∧ (tokenUsable tm now = false →
        (RefreshToken tm now http).endpointCalls = 1
        ∧ (RefreshToken tm now http).request = some
            { url := tm.authConfig.GetTokenURL,
              contentType := "application/x-www-form-urlencoded",
              authorization := "Basic " ++ tm.authConfig.GenerateBasicAuth,
              grantType := "client_credentials",
              scope := tm.authConfig.GetScope }) := by
  constructor
  · intro h
    rcases htok : tm.currentToken with _ | tok
    · simp [tokenUsable, htok] at h
    · have hlt : now + tm.refreshBuffer < tm.tokenExpiry := by
        simpa [tokenUsable, htok] using h
      simp [RefreshToken, htok, hlt, cachedAccessToken]
  · intro h
    have hreq : (refreshCall tm now http).endpointCalls = 1
        ∧ (refreshCall tm now http).request = some (mkTokenRequest tm.authConfig) :=
      refreshCall_calls tm now http
    have hmk : mkTokenRequest tm.authConfig =
        { url := tm.authConfig.GetTokenURL,
          contentType := "application/x-www-form-urlencoded",
          authorization := "Basic " ++ tm.authConfig.GenerateBasicAuth,
          grantType := "client_credentials",
          scope := tm.authConfig.GetScope } := rfl
    rcases htok : tm.currentToken with _ | tok
    · simpa [RefreshToken, htok, hmk] using hreq
    · have hnlt : ¬ now + tm.refreshBuffer < tm.tokenExpiry := by
        intro hlt
        rw [tokenUsable] at h
        simp [htok, hlt] at h
      simpa [RefreshToken, htok, hnlt, hmk] using hreq

/-- Witness for C2's amended theorem: a freshly constructed manager (no
token) makes exactly one endpoint call with the expected request. -/
theorem refreshToken_request_spec_witness :
    (RefreshToken (NewTokenManager authW) 5 (HTTPResult.transportError "down")).endpointCalls = 1
    ∧ (RefreshToken (NewTokenManager authW) 5 (HTTPResult.transportError "down")).request = some
        { url := (NewTokenManager authW).authConfig.GetTokenURL,
          contentType := "application/x-www-form-urlencoded",
          authorization := "Basic " ++ (NewTokenManager authW).authConfig.GenerateBasicAuth,
          grantType := "client_credentials",
          scope := (NewTokenManager authW).authConfig.GetScope } :=
  (refreshToken_request_spec (NewTokenManager authW) 5 (HTTPResult.transportError "down")).2
    (by decide)

/-- Claim C3: a failing `RefreshToken` leaves the stored token and expiry
exactly as they were, and a still-usable cached token in the (unchanged)
post-state is then served by `GetToken` with no network call. -/
theorem refreshToken_failure_preserves (tm : TokenManager) (now : Int)
    (http : HTTPResult) (e : GoError)
    (h : (RefreshToken tm now http).result = Except.error e) :
    (RefreshToken tm now http).state = tm
    ∧ ∀ now2 http2, tokenUsable (RefreshToken tm now http).state now2 = true →
        GetToken (RefreshToken tm now http).state now2
            (RefreshToken tm now http).state now2 http2 =
          { result := Except.ok (cachedAccessToken (RefreshToken tm now http).state),
            state := (RefreshToken tm now http).state,
            endpointCalls := 0, request := none } := by
  have hstate : (RefreshToken tm now http).state = tm := by
    rcases htok : tm.currentToken with _ | tok
    · rw [RefreshToken, htok] at h ⊢
      exact refreshCall_error_state tm now http e h
    · by_cases hlt : now + tm.refreshBuffer < tm.tokenExpiry
      · rw [RefreshToken, htok] at h
        simp [hlt] at h
      · rw [RefreshToken, htok] at h ⊢
        simp only [if_neg hlt] at h ⊢
        exact refreshCall_error_state tm now http e h
  exact ⟨hstate, fun now2 http2 husable =>
    getToken_cached _ now2 _ now2 http2 husable⟩

/-- Witness for C3: a 500 response on refresh preserves a token that is
still valid at an earlier instant, and that token is then served from
cache. -/
theorem refreshToken_failure_preserves_witness :
    (RefreshToken tmFreshW 2000000000000 (HTTPResult.response 500 "boom")).state = tmFreshW
    ∧ GetToken (RefreshToken tmFreshW 2000000000000 (HTTPResult.response 500 "boom")).state 0
        (RefreshToken tmFreshW 2000000000000 (HTTPResult.response 500 "boom")).state 0
        (HTTPResult.response 200 "x") =
      { result := Except.ok (cachedAccessToken
          (RefreshToken tmFreshW 2000000000000 (HTTPResult.response 500 "boom")).state),
        state := (RefreshToken tmFreshW 2000000000000 (HTTPResult.response 500 "boom")).state,
        endpointCalls := 0, request := none } := by
  have h := refreshToken_failure_preserves tmFreshW 2000000000000
    (HTTPResult.response 500 "boom")
    (GoError.plain "token request failed with status 500: boom") rfl
  exact ⟨h.1, h.2 0 (HTTPResult.response 200 "x") (by rw [h.1]; decide)⟩

/-- Claim C8: invalidating twice is the same as invalidating once (both
leave the no-token state), and a subsequent `GetToken` performs exactly one
token-endpoint call. -/
theorem invalidateToken_idempotent (tm : TokenManager) (now : Int) (http : HTTPResult) :
    InvalidateToken (InvalidateToken tm) = InvalidateToken tm
    ∧ (InvalidateToken tm).currentToken = none
    ∧ (GetToken (InvalidateToken (InvalidateToken tm)) now
        (InvalidateToken (InvalidateToken tm)) now http).endpointCalls = 1 := by
  refine ⟨rfl, rfl, ?_⟩
  simp only [GetToken, InvalidateToken, RefreshToken]
  exact (refreshCall_calls _ now http).1

/-- Claim C10: a successful refresh whose payload carries a non-positive
`expires_in` still stores the token, sets its expiry at or before the
current instant, and returns the access token; the stored token can never
pass the margin check, so every subsequent `GetToken` performs another
endpoint call instead of serving from cache. -/
theorem refreshToken_nonpositive_expiry (tm : TokenManager) (now code : Int)
    (body : String) (tok : TokenResponse)
    (hbuf : 0 ≤ tm.refreshBuffer)
    (hstale : tokenUsable tm now = false)
    (hcode : ¬ code > 399)
    (hparse : (parseJson body).bind decodeTokenResponse = some tok)
    (hexp : tok.ExpiresIn ≤ 0) :
    (RefreshToken tm now (HTTPResult.response code body)).result =
        Except.ok tok.AccessToken
    ∧ (RefreshToken tm now (HTTPResult.response code body)).state.currentToken = some tok
    ∧ (RefreshToken tm now (HTTPResult.response code body)).state.tokenExpiry ≤ now
    ∧ ∀ now2 http2, now ≤ now2 →
        tokenUsable (RefreshToken tm now (HTTPResult.response code body)).state now2 = false
        ∧ (GetToken (RefreshToken tm now (HTTPResult.response code body)).state now2
            (RefreshToken tm now (HTTPResult.response code body)).state now2
            http2).endpointCalls = 1 := by
  have hr : RefreshToken tm now (HTTPResult.response code body) =
      { result := Except.ok tok.AccessToken,
        state := { tm with
            currentToken := some tok,
            tokenExpiry := now + tok.ExpiresIn * timeSecond },
        endpointCalls := 1, request := some (mkTokenRequest tm.authConfig) } := by
    rcases htok : tm.currentToken with _ | tok0
    · rw [RefreshToken, htok]
      simp [refreshCall, hcode, hparse]
    · have hnlt : ¬ now + tm.refreshBuffer < tm.tokenExpiry := by
        intro hlt
        rw [tokenUsable] at hstale
        simp [htok, hlt] at hstale
      simp [RefreshToken, htok, hnlt, refreshCall, hcode, hparse]
  have hexpmul : tok.ExpiresIn * timeSecond ≤ 0 := by
    have ht : (0 : Int) ≤ timeSecond := by norm_num [timeSecond]
    nlinarith
  rw [hr]
  refine ⟨rfl, rfl, by simpa using hexpmul, ?_⟩
  intro now2 http2 hle
  have hnlt2 : ¬ now2 + tm.refreshBuffer < now + tok.ExpiresIn * timeSecond := by
    omega
  constructor
  · simp [tokenUsable, hnlt2]
  · simp only [GetToken, RefreshToken, if_neg hnlt2]
    exact (refreshCall_calls _ now2 http2).1

/-- Witness for C10: a zero-lifetime token payload on a fresh manager. -/
theorem refreshToken_nonpositive_expiry_witness :
    (RefreshToken (NewTokenManager authW) 100 (HTTPResult.response 200 body10)).result =
        Except.ok "t0"
    ∧ (RefreshToken (NewTokenManager authW) 100 (HTTPResult.response 200 body10)).state.tokenExpiry ≤ 100
    ∧ tokenUsable (RefreshToken (NewTokenManager authW) 100
        (HTTPResult.response 200 body10)).state 100 = false
    ∧ (GetToken (RefreshToken (NewTokenManager authW) 100
          (HTTPResult.response 200 body10)).state 100
        (RefreshToken (NewTokenManager authW) 100
          (HTTPResult.response 200 body10)).state 100
        (HTTPResult.response 200 body10)).endpointCalls = 1 := by
  have h := refreshToken_nonpositive_expiry (NewTokenManager authW) 100 200 body10
    { TokenType := "", ExpiresIn := 0, AccessToken := "t0", Scope := "" }
    (by decide) (by decide) (by decide) (by decide) (by decide)
  exact ⟨h.1, h.2.2.1, (h.2.2.2 100 (HTTPResult.response 200 body10) (by decide)).1,
    (h.2.2.2 100 (HTTPResult.response 200 body10) (by decide)).2⟩

set_option maxRecDepth 100000 in
/-- Claim C4 counterexample: a non-empty 257-byte export identifier is
rejected by validation, so `WaitForExport` returns a validation error having
made no status call at all — even though the first poll would have been
terminal. -/
theorem waitForExport_longid_counterexample :
    longID ≠ ""
    ∧ (WaitForExport longID 1 1 pollsCompleted 3).statusCalls = 0
    ∧ (WaitForExport longID 1 1 pollsCompleted 3).error =
        some (GoError.plain "export ID exceeds maximum length of 256 characters")
    ∧ (WaitForExport longID 1 1 pollsCompleted 3).status = none := by
  refine ⟨by decide, rfl, rfl, rfl⟩

/-- Claim C4 (amended): for every export identifier that passes validation
(non-empty and at most 256 bytes), `WaitForExport` performs a status check
immediately, before any interval wait; if that first check is terminal it
returns that status with no error after exactly one status call and zero
interval waits, and if it fails the wrapped error is returned after exactly
one status call and zero interval waits. -/
theorem waitForExport_immediate_check (exportID : String)
    (pollInterval timeoutDur : Int)
    (polls : Nat → Except GoError ExportStatusResponse) (ticks : Nat)
    (hvalid : ValidateExportID exportID = none) :
    (∀ st, polls 0 = Except.ok st → isTerminalStatus st.Status = true →
        WaitForExport exportID pollInterval timeoutDur polls ticks =
          { status := some st, error := none, statusCalls := 1, intervalWaits := 0 })
    ∧ (∀ e, polls 0 = Except.error e →
        WaitForExport exportID pollInterval timeoutDur polls ticks =
          { status := none,
            error := some (GoError.wrapped "failed to get initial export status" e),
            statusCalls := 1, intervalWaits := 0 }) := by
  constructor
  · intro st h0 hterm
    simp [WaitForExport, hvalid, h0, hterm]
  · intro e h0
    simp [WaitForExport, hvalid, h0]

/-- Witness for C4's amended theorem: a valid identifier whose first poll is
COMPLETED. -/
theorem waitForExport_immediate_check_witness :
    WaitForExport "abc" 1 1 pollsCompleted 3 =
      { status := some { ExportID := "e", Status := "COMPLETED",
                         ResultsFileURL := "u", ErrorDescription := "" },
        error := none, statusCalls := 1, intervalWaits := 0 } :=
  (waitForExport_immediate_check "abc" 1 1 pollsCompleted 3 (by decide)).1
    { ExportID := "e", Status := "COMPLETED", ResultsFileURL := "u",
      ErrorDescription := "" } rfl (by decide)

/-- If every poll the fuel admits succeeds with a non-terminal status, the
loop times out, returning the last polled status (or the status it entered
with when no tick fires) along with the timeout error, after one call and
one wait per tick. -/
lemma waitLoop_timeout (polls : Nat → Except GoError ExportStatusResponse)
    (msg : String) :
    ∀ (fuel i calls waits : Nat) (last : ExportStatusResponse),
      (∀ k, i ≤ k → k < i + fuel →
        ∃ st, polls k = Except.ok st ∧ isTerminalStatus st.Status = false) →
      ∃ stL, waitLoop polls msg last i calls waits fuel =
          { status := some stL, error := some (GoError.plain msg),
            statusCalls := calls + fuel, intervalWaits := waits + fuel }
        ∧ ((fuel = 0 ∧ stL = last) ∨
           (0 < fuel ∧ polls (i + fuel - 1) = Except.ok stL
             ∧ isTerminalStatus stL.Status = false)) := by
  intro fuel
  induction fuel with
  | zero =>
      intro i calls waits last _
      exact ⟨last, by simp [waitLoop], Or.inl ⟨rfl, rfl⟩⟩
  | succ n ih =>
      intro i calls waits last h
      obtain ⟨st0, hok, hnt⟩ := h i le_rfl (by omega)
      have hstep : waitLoop polls msg last i calls waits (n + 1) =
          waitLoop polls msg st0 (i + 1) (calls + 1) (waits + 1) n := by
        simp [waitLoop, hok, hnt]
      obtain ⟨stL, heq, hlast⟩ :=
        ih (i + 1) (calls + 1) (waits + 1) st0
          (fun k hk1 hk2 => h k (by omega) (by omega))
      refine ⟨stL, ?_, ?_⟩
      · rw [hstep, heq]
        simp only [WaitResult.mk.injEq]
        exact ⟨trivial, trivial, by omega, by omega⟩
      · rcases hlast with ⟨hn0, hstL⟩ | ⟨hpos, hp, hnt2⟩
        · subst hn0; subst hstL
          refine Or.inr ⟨by omega, ?_, hnt⟩
          have : i + (0 + 1) - 1 = i := by omega
          rw [this]; exact hok
        · refine Or.inr ⟨by omega, ?_, hnt2⟩
          have : i + (n + 1) - 1 = i + 1 + n - 1 := by omega
          rw [this]; exact hp

/-- Claim C5: when no poll up to the tick budget is terminal and none fails,
`WaitForExport` returns the last observed (non-terminal) status together
with a non-nil timeout error — distinguishable from a failed job, which
yields an ERROR status and a nil error. -/
theorem waitForExport_timeout_spec (exportID : String)
    (pollInterval timeoutDur : Int)
    (polls : Nat → Except GoError ExportStatusResponse) (ticks : Nat)
    (hvalid : ValidateExportID exportID = none)
    (hall : ∀ k, k ≤ ticks →
      ∃ st, polls k = Except.ok st ∧ isTerminalStatus st.Status = false) :
    ∃ stL,
      (WaitForExport exportID pollInterval timeoutDur polls ticks).status = some stL
      ∧ polls ticks = Except.ok stL
      ∧ isTerminalStatus stL.Status = false
      ∧ (WaitForExport exportID pollInterval timeoutDur polls ticks).error =
          some (GoError.plain ("timeout waiting for export to complete after " ++
            toString (if timeoutDur ≤ 0 then 600 * timeSecond else timeoutDur)))
      ∧ (WaitForExport exportID pollInterval timeoutDur polls ticks).statusCalls =
          ticks + 1
      ∧ (WaitForExport exportID pollInterval timeoutDur polls ticks).intervalWaits =
          ticks := by
  obtain ⟨st0, h0, hnt0⟩ := hall 0 (Nat.zero_le _)
  have hunfold : WaitForExport exportID pollInterval timeoutDur polls ticks =
      waitLoop polls ("timeout waiting for export to complete after " ++
        toString (if timeoutDur ≤ 0 then 600 * timeSecond else timeoutDur))
        st0 1 1 0 ticks := by
    simp [WaitForExport, hvalid, h0, hnt0]
  obtain ⟨stL, heq, hlast⟩ :=
    waitLoop_timeout polls
      ("timeout waiting for export to complete after " ++
        toString (if timeoutDur ≤ 0 then 600 * timeSecond else timeoutDur))
      ticks 1 1 0 st0 (fun k hk1 hk2 => hall k (by omega))
  have hpticks : polls ticks = Except.ok stL ∧ isTerminalStatus stL.Status = false := by
    rcases hlast with ⟨ht0, hstL⟩ | ⟨hpos, hp, hnt⟩
    · subst ht0; subst hstL; exact ⟨h0, hnt0⟩
    · have : 1 + ticks - 1 = ticks := by omega
      rw [this] at hp
      exact ⟨hp, hnt⟩
  refine ⟨stL, ?_, hpticks.1, hpticks.2, ?_, ?_, ?_⟩ <;>
    rw [hunfold, heq] <;> simp <;> omega

/-- Witness for C5: a job that stays IN_PROGRESS for a 2-tick budget times
out with the last observed status. -/
theorem waitForExport_timeout_spec_witness :
    ∃ stL,
      (WaitForExport "abc" 1 7 pollsIP 2).status = some stL
      ∧ pollsIP 2 = Except.ok stL
      ∧ isTerminalStatus stL.Status = false
      ∧ (WaitForExport "abc" 1 7 pollsIP 2).error =
          some (GoError.plain ("timeout waiting for export to complete after " ++
            toString (if (7 : Int) ≤ 0 then 600 * timeSecond else 7)))
      ∧ (WaitForExport "abc" 1 7 pollsIP 2).statusCalls = 2 + 1
      ∧ (WaitForExport "abc" 1 7 pollsIP 2).intervalWaits = 2 :=
  waitForExport_timeout_spec "abc" 1 7 pollsIP 2 (by decide)
    (fun k _ => ⟨stIP, rfl, by decide⟩)

/-- Every error the polling loop produces is a plain timeout error or a
wrapping of the poll failure — never a bare `*APIError`. -/
lemma waitLoop_error_not_apiError (polls : Nat → Except GoError ExportStatusResponse)
    (msg : String) :
    ∀ (fuel i calls waits : Nat) (last : ExportStatusResponse) (e : GoError),
      (waitLoop polls msg last i calls waits fuel).error = some e →
      notAPIError e = true := by
  intro fuel
  induction fuel with
  | zero =>
      intro i calls waits last e he
      simp [waitLoop] at he
      subst he
      rfl
  | succ n ih =>
      intro i calls waits last e he
      rw [waitLoop] at he
      cases hp : polls i with
      | error e0 =>
          rw [hp] at he
          simp at he
          subst he
          rfl
      | ok st =>
          rw [hp] at he
          by_cases ht : isTerminalStatus st.Status
          · simp [ht] at he
          · simp only [ht, Bool.false_eq_true, if_false] at he
            exact ih (i + 1) (calls + 1) (waits + 1) st e he

/-- A failing `ValidateExportID` always yields a plain error. -/
lemma validateExportID_error_not_apiError (exportID : String) (e : GoError)
    (h : ValidateExportID exportID = some e) : notAPIError e = true := by
  unfold ValidateExportID at h
  split at h
  · cases h; rfl
  · split at h
    · cases h; rfl
    · cases h

/-- Claim C9 counterexample: the timeout error returned by `WaitForExport`
is a plain formatted error, not a wrapped error, refuting "every error
returned by WaitForExport is a wrapped error". -/
theorem waitForExport_error_not_wrapped :
    (WaitForExport "abc" 1 9 pollsIP 0).error =
      some (GoError.plain "timeout waiting for export to complete after 9")
    ∧ isWrappedErr (GoError.plain "timeout waiting for export to complete after 9") =
        false :=
  ⟨rfl, rfl⟩

/-- Claim C9 (amended): every classification predicate is false on any error
whose dynamic type is not `*APIError` — including errors that merely wrap
one — and every error returned by `WaitForExport` (validation, wrapped poll
failure, or plain timeout) is not an `*APIError`, so no predicate ever holds
on it. -/
theorem classification_false_on_waitForExport_errors :
    (∀ e : GoError, notAPIError e = true →
        IsBadRequest e = false ∧ IsUnauthorized e = false ∧ IsForbidden e = false
        ∧ IsNotFound e = false ∧ IsConflict e = false ∧ IsValidationError e = false
        ∧ IsRateLimited e = false ∧ IsServerError e = false ∧ IsTransient e = false)
    ∧ (∀ msg inner, notAPIError (GoError.wrapped msg inner) = true)
    ∧ (∀ exportID (pollInterval timeoutDur : Int)
        (polls : Nat → Except GoError ExportStatusResponse) (ticks : Nat)
        (e : GoError),
        (WaitForExport exportID pollInterval timeoutDur polls ticks).error = some e →
        notAPIError e = true) := by
  refine ⟨?_, fun _ _ => rfl, ?_⟩
  · intro e he
    cases e with
    | apiError a => simp [notAPIError] at he
    | plain msg =>
        exact ⟨rfl, rfl, rfl, rfl, rfl, rfl, rfl, rfl, rfl⟩
    | wrapped msg inner =>
        exact ⟨rfl, rfl, rfl, rfl, rfl, rfl, rfl, rfl, rfl⟩
  · intro exportID pollInterval timeoutDur polls ticks e he
    rw [WaitForExport] at he
    cases hv : ValidateExportID exportID with
    | some v =>
        rw [hv] at he
        simp at he
        subst he
        exact validateExportID_error_not_apiError exportID v hv
    | none =>
        rw [hv] at he
        cases hp : polls 0 with
        | error e0 =>
            rw [hp] at he
            simp at he
            subst he
            rfl
        | ok st =>
            rw [hp] at he
            by_cases ht : isTerminalStatus st.Status
            · simp [ht] at he
            · simp only [ht, Bool.false_eq_true, if_false] at he
              exact waitLoop_error_not_apiError polls _ ticks 1 1 0 st e he

/-- Witness for C9's amended theorem: the timeout error of a concrete run is
not an APIError, and no predicate holds on it. -/
theorem classification_false_on_waitForExport_errors_witness :
    notAPIError (GoError.plain "timeout waiting for export to complete after 9") = true
    ∧ IsTransient (GoError.plain "timeout waiting for export to complete after 9") =
        false := by
  have hna := classification_false_on_waitForExport_errors.2.2 "abc" 1 9 pollsIP 0
    (GoError.plain "timeout waiting for export to complete after 9") rfl
  exact ⟨hna, (classification_false_on_waitForExport_errors.1 _ hna).2.2.2.2.2.2.2.2⟩
